import Mathlib

/-
Verification of the per-student grade/risk computation implemented in the
marks-entry view of the SPAS teacher module (function `calculateRow` in
`static/js/main.js`).  The JavaScript reads six per-row integer inputs,
validates them, and writes derived displays (total, final, grade badge,
risk badge), a hidden submission value, and per-field error CSS classes.
The embedding below reproduces that computation as a pure function from
the row's parsed input values to a record of everything the function
writes to the page.
-/

set_option autoImplicit false

namespace SPAS

/-- JS `Math.round` applied to the exact rational `num / den` for a
positive denominator `den`: JavaScript rounds half toward positive
infinity, i.e. `Math.round (x) = ⌊x + 1 / 2⌋`, which for `num / den`
with `0 < den` is the floor of `(2 * num + den) / (2 * den)`.
`Int.ediv` by a positive divisor is exactly that floor.  This models
`Math.round((attended / total_classes) * 100)` and
`Math.round((total / 160) * 20)` from `calculateRow`. -/
def jsRound (num den : Int) : Int :=
  (2 * num + den) / (2 * den)

/-- The letter grades produced by `calculateRow` (lines 85-90). -/
inductive Grade where
  | Aplus
  | A
  | B
  | C
  | D
  deriving DecidableEq, Repr

/-- The risk categories produced by `calculateRow` (lines 102-107). -/
inductive Risk where
  | Critical
  | Average
  | Safe
  | Best
  deriving DecidableEq, Repr

/-- The text content written into the `total-` and `final-` display
cells: either the string `'ERR'` or a rendered number. -/
inductive Display where
  | err
  | num (n : Int)
  deriving DecidableEq, Repr

/-- One row's parsed input values.  In the source each field is obtained
by `parseInt(...) || 0` from the corresponding `<input>`, so each is an
arbitrary integer (the `|| 0` fallback handles the non-numeric case; see
`parseRow`). -/
structure Row where
  total_classes : Int
  attended : Int
  i1 : Int
  i2 : Int
  assign : Int
  sem : Int
  deriving DecidableEq, Repr

/-- One row's raw input fields before parsing: `some n` when
`parseInt` succeeds with value `n`, `none` when it yields `NaN`
(empty or non-numeric text). -/
structure RawRow where
  total_classes : Option Int
  attended : Option Int
  i1 : Option Int
  i2 : Option Int
  assign : Option Int
  sem : Option Int
  deriving DecidableEq, Repr

/-- `parseInt(v) || 0`: a `NaN` result (modelled as `none`) is coerced
to `0`; a successfully parsed integer is kept (a parsed `0` is falsy in
JS, but `0 || 0 = 0`, so the value is unchanged). -/
def coerceField : Option Int → Int
  | some n => n
  | none => 0

/-- Lines 18-23 of `main.js`: every raw field is parsed and coerced
before any validation runs. -/
def parseRow (raw : RawRow) : Row where
  total_classes := coerceField raw.total_classes
  attended := coerceField raw.attended
  i1 := coerceField raw.i1
  i2 := coerceField raw.i2
  assign := coerceField raw.assign
  sem := coerceField raw.sem

/-- Line 28: the attendance check `attended > total_classes`. -/
def attendedError (r : Row) : Bool :=
  r.attended > r.total_classes

/-- Line 35: `i1 < 0 || i1 > 70`. -/
def i1Error (r : Row) : Bool :=
  r.i1 < 0 || r.i1 > 70

/-- Line 42: `i2 < 0 || i2 > 70`. -/
def i2Error (r : Row) : Bool :=
  r.i2 < 0 || r.i2 > 70

/-- Line 49: `assign < 0 || assign > 10`. -/
def assignError (r : Row) : Bool :=
  r.assign < 0 || r.assign > 10

/-- Line 56: `sem < 0 || sem > 10`. -/
def semError (r : Row) : Bool :=
  r.sem < 0 || r.sem > 10

/-- The `hasError` flag accumulated over the five checks (lines 26-61);
the checks are evaluated independently, never short-circuited. -/
def hasError (r : Row) : Bool :=
  attendedError r || i1Error r || i2Error r || assignError r || semError r

/-- Line 73: `total_classes > 0 ? Math.round((attended / total_classes) * 100) : 0`. -/
def attendancePercent (r : Row) : Int :=
  if r.total_classes > 0 then jsRound (r.attended * 100) r.total_classes else 0

/-- Line 76: `total = i1 + i2 + assign + sem`. -/
def totalOf (r : Row) : Int :=
  r.i1 + r.i2 + r.assign + r.sem

/-- Line 80: `final = Math.round((total / 160) * 20)`; the exact value
is `Math.round(total * 20 / 160)` since the arithmetic is rational. -/
def finalOf (r : Row) : Int :=
  jsRound (totalOf r * 20) 160

/-- Lines 85-90: the grade cascade, inclusive lower bounds, first match
wins. -/
def gradeOf (final : Int) : Grade :=
  if final ≥ 18 then Grade.Aplus
  else if final ≥ 15 then Grade.A
  else if final ≥ 12 then Grade.B
  else if final ≥ 10 then Grade.C
  else Grade.D

/-- Lines 92-97: the CSS class attached to the grade badge. -/
def gradeClassOf : Grade → String
  | Grade.Aplus => "grade-aplus"
  | Grade.A => "grade-a"
  | Grade.B => "grade-b"
  | Grade.C => "grade-c"
  | Grade.D => "grade-d"

/-- Lines 102-107: the risk cascade, first match wins. -/
def riskOf (attendance_percent final : Int) : Risk :=
  if attendance_percent < 70 || final < 10 then Risk.Critical
  else if final < 15 then Risk.Average
  else if final = 20 then Risk.Best
  else Risk.Safe

/-- Lines 109-113: the CSS class attached to the risk badge. -/
def riskClassOf : Risk → String
  | Risk.Critical => "risk-critical"
  | Risk.Average => "risk-average"
  | Risk.Safe => "risk-safe"
  | Risk.Best => "risk-best"

/-- Everything `calculateRow` writes to the page for one row:
the `total-` and `final-` display cells, the hidden `final-calc-`
submission input, the grade and risk badges (`none` models the
placeholder `'-'`), and the `error` CSS class on each of the five
checked inputs. -/
structure RowOutput where
  totalDisplay : Display
  finalDisplay : Display
  finalCalc : Int
  gradeDisplay : Option Grade
  riskDisplay : Option Risk
  attendedMarked : Bool
  i1Marked : Bool
  i2Marked : Bool
  assignMarked : Bool
  semMarked : Bool
  deriving DecidableEq, Repr

/-- Lines 13-117 of `main.js`: the whole per-row recomputation as a pure
function of the parsed input values.  Each checked input's `error` class
after the call equals its own check (the `else` branches remove the
class).  On any error (lines 63-70) the displays read `'ERR'`, the
hidden final is forced to `'0'`, the badges are the `'-'` placeholder,
and the function returns before computing anything else.  Otherwise the
derived values are computed and written. -/
def calculateRow (r : Row) : RowOutput :=
  if hasError r then
    { totalDisplay := Display.err
      finalDisplay := Display.err
      finalCalc := 0
      gradeDisplay := none
      riskDisplay := none
      attendedMarked := attendedError r
      i1Marked := i1Error r
      i2Marked := i2Error r
      assignMarked := assignError r
      semMarked := semError r }
  else
    { totalDisplay := Display.num (totalOf r)
      finalDisplay := Display.num (finalOf r)
      finalCalc := finalOf r
      gradeDisplay := some (gradeOf (finalOf r))
      riskDisplay := some (riskOf (attendancePercent r) (finalOf r))
      attendedMarked := false
      i1Marked := false
      i2Marked := false
      assignMarked := false
      semMarked := false }

/-- The DOM state relevant to one row: the six raw input values (read,
never written, by `calculateRow` — it only toggles their CSS classes)
and the output targets. -/
structure DomState where
  raw : RawRow
  out : RowOutput
  deriving DecidableEq, Repr

/-- One invocation of `calculateRow` as a transformer of the row's DOM
state: it reads the six input values, recomputes, and overwrites the
output targets.  The input values themselves are untouched. -/
def runCalculateRow (st : DomState) : DomState where
  raw := st.raw
  out := calculateRow (parseRow st.raw)

/-- The `hasError` flag is clear exactly when all five checks of
lines 26-61 pass. -/
theorem hasError_eq_false_iff (r : Row) :
    hasError r = false ↔
      r.attended ≤ r.total_classes ∧ 0 ≤ r.i1 ∧ r.i1 ≤ 70 ∧ 0 ≤ r.i2 ∧ r.i2 ≤ 70 ∧
        0 ≤ r.assign ∧ r.assign ≤ 10 ∧ 0 ≤ r.sem ∧ r.sem ≤ 10 := by
  simp only [hasError, attendedError, i1Error, i2Error, assignError, semError,
    Bool.or_eq_false_iff, decide_eq_false_iff_not, not_lt, gt_iff_lt]
  omega

/-- C1: for every row in which all five validation checks pass,
`calculateRow` displays `total = internal1 + internal2 + assignment +
seminar`, which lies in `[0, 160]`, and `final = round(20 * total / 160)`,
which lies in `[0, 20]`; the hidden submission value carries the same
final. -/
theorem calculateRow_valid_ranges (r : Row) (h : hasError r = false) :
    (calculateRow r).totalDisplay = Display.num (r.i1 + r.i2 + r.assign + r.sem) ∧
    0 ≤ r.i1 + r.i2 + r.assign + r.sem ∧ r.i1 + r.i2 + r.assign + r.sem ≤ 160 ∧
    (calculateRow r).finalDisplay =
      Display.num (jsRound ((r.i1 + r.i2 + r.assign + r.sem) * 20) 160) ∧
    (calculateRow r).finalCalc = jsRound ((r.i1 + r.i2 + r.assign + r.sem) * 20) 160 ∧
    0 ≤ finalOf r ∧ finalOf r ≤ 20 := by
  have hv := (hasError_eq_false_iff r).mp h
  refine ⟨?_, ?_, ?_, ?_, ?_, ?_, ?_⟩
  · simp [calculateRow, h, totalOf]
  · omega
  · omega
  · simp [calculateRow, h, finalOf, totalOf]
  · simp [calculateRow, h, finalOf, totalOf]
  · unfold finalOf totalOf jsRound; omega
  · unfold finalOf totalOf jsRound; omega

/-- Witness for C1 at spec scenario A
(`totalClasses = 50, attendedClasses = 40, 60, 55, 8, 7`). -/
theorem calculateRow_valid_ranges_witness :
    (calculateRow ⟨50, 40, 60, 55, 8, 7⟩).totalDisplay = Display.num 130 ∧
    0 ≤ (130 : Int) ∧ (130 : Int) ≤ 160 ∧
    (calculateRow ⟨50, 40, 60, 55, 8, 7⟩).finalDisplay = Display.num (jsRound (130 * 20) 160) ∧
    (calculateRow ⟨50, 40, 60, 55, 8, 7⟩).finalCalc = jsRound (130 * 20) 160 ∧
    0 ≤ finalOf ⟨50, 40, 60, 55, 8, 7⟩ ∧ finalOf ⟨50, 40, 60, 55, 8, 7⟩ ≤ 20 :=
  calculateRow_valid_ranges ⟨50, 40, 60, 55, 8, 7⟩ (by decide)

/-- C2: whenever at least one validation check fails, `calculateRow`
sets both the total and final displays to the `'ERR'` marker, forces the
hidden submission value for final to `0`, sets the grade and risk
displays to the `'-'` placeholder, and computes nothing else — whatever
the other fields hold; in particular `internal1 = 75` alone makes the
row invalid. -/
theorem calculateRow_invalid_row_outputs (r : Row) :
    (hasError r = true →
      calculateRow r =
        { totalDisplay := Display.err
          finalDisplay := Display.err
          finalCalc := 0
          gradeDisplay := none
          riskDisplay := none
          attendedMarked := attendedError r
          i1Marked := i1Error r
          i2Marked := i2Error r
          assignMarked := assignError r
          semMarked := semError r }) ∧
    (r.i1 = 75 → hasError r = true) := by
  constructor
  · intro h
    simp [calculateRow, h]
  · intro h
    simp [hasError, i1Error, h]

/-- Witness for C2: `internal1 = 75` with every other field valid still
yields the full error rendering. -/
theorem calculateRow_invalid_row_outputs_witness :
    calculateRow ⟨50, 40, 75, 0, 0, 0⟩ =
      { totalDisplay := Display.err
        finalDisplay := Display.err
        finalCalc := 0
        gradeDisplay := none
        riskDisplay := none
        attendedMarked := attendedError ⟨50, 40, 75, 0, 0, 0⟩
        i1Marked := i1Error ⟨50, 40, 75, 0, 0, 0⟩
        i2Marked := i2Error ⟨50, 40, 75, 0, 0, 0⟩
        assignMarked := assignError ⟨50, 40, 75, 0, 0, 0⟩
        semMarked := semError ⟨50, 40, 75, 0, 0, 0⟩ } :=
  (calculateRow_invalid_row_outputs ⟨50, 40, 75, 0, 0, 0⟩).1
    ((calculateRow_invalid_row_outputs ⟨50, 40, 75, 0, 0, 0⟩).2 rfl)

/-- C3: for every valid row the risk badge follows the top-down
first-match cascade (attendance below 70 or final below 10 gives
Critical; else final below 15 gives Average; else final equal to 20
gives Best; else Safe), and spec scenario B
(`50, 30, 70, 70, 10, 10`) gives attendance 60, total 160, final 20,
grade A+, yet risk Critical. -/
theorem calculateRow_risk_rules (r : Row) (h : hasError r = false) :
    (calculateRow r).riskDisplay =
      some (if attendancePercent r < 70 ∨ finalOf r < 10 then Risk.Critical
        else if finalOf r < 15 then Risk.Average
        else if finalOf r = 20 then Risk.Best
        else Risk.Safe) ∧
    attendancePercent ⟨50, 30, 70, 70, 10, 10⟩ = 60 ∧
    calculateRow ⟨50, 30, 70, 70, 10, 10⟩ =
      { totalDisplay := Display.num 160
        finalDisplay := Display.num 20
        finalCalc := 20
        gradeDisplay := some Grade.Aplus
        riskDisplay := some Risk.Critical
        attendedMarked := false
        i1Marked := false
        i2Marked := false
        assignMarked := false
        semMarked := false } := by
  refine ⟨?_, by decide, by decide⟩
  simp only [calculateRow, h, Bool.false_eq_true, if_false, riskOf,
    Bool.or_eq_true, decide_eq_true_eq]

/-- Witness for C3 at spec scenario B. -/
theorem calculateRow_risk_rules_witness :
    (calculateRow ⟨50, 30, 70, 70, 10, 10⟩).riskDisplay =
      some (if attendancePercent ⟨50, 30, 70, 70, 10, 10⟩ < 70 ∨
          finalOf ⟨50, 30, 70, 70, 10, 10⟩ < 10 then Risk.Critical
        else if finalOf ⟨50, 30, 70, 70, 10, 10⟩ < 15 then Risk.Average
        else if finalOf ⟨50, 30, 70, 70, 10, 10⟩ = 20 then Risk.Best
        else Risk.Safe) ∧
    attendancePercent ⟨50, 30, 70, 70, 10, 10⟩ = 60 ∧
    calculateRow ⟨50, 30, 70, 70, 10, 10⟩ =
      { totalDisplay := Display.num 160
        finalDisplay := Display.num 20
        finalCalc := 20
        gradeDisplay := some Grade.Aplus
        riskDisplay := some Risk.Critical
        attendedMarked := false
        i1Marked := false
        i2Marked := false
        assignMarked := false
        semMarked := false } :=
  calculateRow_risk_rules ⟨50, 30, 70, 70, 10, 10⟩ (by decide)

/-- C4: for every valid row the grade badge follows the top-down
first-match cascade of inclusive lower bounds: final at least 18 gives
A+, else at least 15 gives A, else at least 12 gives B, else at least
10 gives C, else D. -/
theorem calculateRow_grade_rules (r : Row) (h : hasError r = false) :
    (calculateRow r).gradeDisplay =
      some (if finalOf r ≥ 18 then Grade.Aplus
        else if finalOf r ≥ 15 then Grade.A
        else if finalOf r ≥ 12 then Grade.B
        else if finalOf r ≥ 10 then Grade.C
        else Grade.D) := by
  simp only [calculateRow, h, Bool.false_eq_true, if_false, gradeOf]

/-- Witness for C4 at spec scenario A, where the final of 16 earns an A. -/
theorem calculateRow_grade_rules_witness :
    (calculateRow ⟨50, 40, 60, 55, 8, 7⟩).gradeDisplay =
      some (if finalOf ⟨50, 40, 60, 55, 8, 7⟩ ≥ 18 then Grade.Aplus
        else if finalOf ⟨50, 40, 60, 55, 8, 7⟩ ≥ 15 then Grade.A
        else if finalOf ⟨50, 40, 60, 55, 8, 7⟩ ≥ 12 then Grade.B
        else if finalOf ⟨50, 40, 60, 55, 8, 7⟩ ≥ 10 then Grade.C
        else Grade.D) :=
  calculateRow_grade_rules ⟨50, 40, 60, 55, 8, 7⟩ (by decide)

/-- C5 counterexample: spec scenario D
(`totalClasses = 40, attendedClasses = 40, 20, 20, 0, 0`) does NOT get
risk `Average`: its final is 5, and `final < 10` fires the Critical
rule first, so the code renders `Critical`. -/
theorem scenarioD_risk_not_average :
    (calculateRow ⟨40, 40, 20, 20, 0, 0⟩).riskDisplay = some Risk.Critical ∧
    (calculateRow ⟨40, 40, 20, 20, 0, 0⟩).riskDisplay ≠ some Risk.Average := by
  decide

/-- C5 (amended): the input `totalClasses = 40, attendedClasses = 40,
internal1 = 20, internal2 = 20, assignment = 0, seminar = 0` yields
total 40, final 5, grade D, attendance 100 — and risk Critical, because
`final = 5 < 10` matches the first risk rule despite the full
attendance. -/
theorem scenarioD_outputs :
    attendancePercent ⟨40, 40, 20, 20, 0, 0⟩ = 100 ∧
    calculateRow ⟨40, 40, 20, 20, 0, 0⟩ =
      { totalDisplay := Display.num 40
        finalDisplay := Display.num 5
        finalCalc := 5
        gradeDisplay := some Grade.D
        riskDisplay := some Risk.Critical
        attendedMarked := false
        i1Marked := false
        i2Marked := false
        assignMarked := false
        semMarked := false } := by
  decide

/-- C6 counterexample: `attendedClasses = -5` with `totalClasses = 10`
is outside the declared non-negative domain, yet the code flags
nothing (`-5 > 10` is false) and computes and displays every derived
value, including an attendance percentage of `-50`. -/
theorem negative_attended_not_flagged :
    hasError ⟨10, -5, 0, 0, 0, 0⟩ = false ∧
    attendancePercent ⟨10, -5, 0, 0, 0, 0⟩ = -50 ∧
    (calculateRow ⟨10, -5, 0, 0, 0, 0⟩).totalDisplay ≠ Display.err ∧
    (calculateRow ⟨10, -5, 0, 0, 0, 0⟩).finalDisplay ≠ Display.err ∧
    (calculateRow ⟨10, -5, 0, 0, 0, 0⟩).riskDisplay ≠ none := by
  decide

/-- C6 (amended): a row failing one of the five implemented checks
(`attended > total_classes`, internals outside `[0, 70]`, assignment or
seminar outside `[0, 10]`) renders the error markers and no derived
values; but a negative `attendedClasses` that does not exceed
`totalClasses` passes validation, and the derived values — including a
negative attendance percentage — are computed and displayed. -/
theorem calculateRow_domain_checks (r : Row) :
    ((r.attended > r.total_classes ∨ r.i1 < 0 ∨ 70 < r.i1 ∨ r.i2 < 0 ∨ 70 < r.i2 ∨
        r.assign < 0 ∨ 10 < r.assign ∨ r.sem < 0 ∨ 10 < r.sem) →
      (calculateRow r).totalDisplay = Display.err ∧
      (calculateRow r).finalDisplay = Display.err ∧
      (calculateRow r).finalCalc = 0 ∧
      (calculateRow r).gradeDisplay = none ∧
      (calculateRow r).riskDisplay = none) ∧
    (r.attended < 0 → r.attended ≤ r.total_classes →
      0 ≤ r.i1 → r.i1 ≤ 70 → 0 ≤ r.i2 → r.i2 ≤ 70 →
      0 ≤ r.assign → r.assign ≤ 10 → 0 ≤ r.sem → r.sem ≤ 10 →
      (calculateRow r).totalDisplay = Display.num (totalOf r) ∧
      (calculateRow r).riskDisplay = some (riskOf (attendancePercent r) (finalOf r))) := by
  constructor
  · intro hbad
    have h : hasError r = true := by
      rcases (Bool.eq_false_or_eq_true (hasError r)) with ht | hf

      · exact ht
      · exact absurd ((hasError_eq_false_iff r).mp hf) (by omega)
    simp [calculateRow, h]
  · intro h1 h2 h3 h4 h5 h6 h7 h8 h9 h10
    have h : hasError r = false := (hasError_eq_false_iff r).mpr (by omega)
    simp [calculateRow, h]

/-- Witness for C6 (amended): the invalid-branch half at
`internal1 = 80`, and the unflagged-negative-attendance half at
`attendedClasses = -5, totalClasses = 10`. -/
theorem calculateRow_domain_checks_witness :
    ((calculateRow ⟨10, 5, 80, 0, 0, 0⟩).totalDisplay = Display.err ∧
      (calculateRow ⟨10, 5, 80, 0, 0, 0⟩).finalDisplay = Display.err ∧
      (calculateRow ⟨10, 5, 80, 0, 0, 0⟩).finalCalc = 0 ∧
      (calculateRow ⟨10, 5, 80, 0, 0, 0⟩).gradeDisplay = none ∧
      (calculateRow ⟨10, 5, 80, 0, 0, 0⟩).riskDisplay = none) ∧
    ((calculateRow ⟨10, -5, 0, 0, 0, 0⟩).totalDisplay =
        Display.num (totalOf ⟨10, -5, 0, 0, 0, 0⟩) ∧
      (calculateRow ⟨10, -5, 0, 0, 0, 0⟩).riskDisplay =
        some (riskOf (attendancePercent ⟨10, -5, 0, 0, 0, 0⟩) (finalOf ⟨10, -5, 0, 0, 0, 0⟩))) :=
  ⟨(calculateRow_domain_checks ⟨10, 5, 80, 0, 0, 0⟩).1 (by right; right; left; decide),
    (calculateRow_domain_checks ⟨10, -5, 0, 0, 0, 0⟩).2 (by decide) (by decide) (by decide)
      (by decide) (by decide) (by decide) (by decide) (by decide) (by decide) (by decide)⟩

/-- C7: the division by `total_classes` sits behind the guard
`total_classes > 0`, so any non-positive class count — in particular
`totalClasses = 0, attendedClasses = 0` — yields attendance 0 without
dividing; with the marks in range such a row is valid and the risk is
computed from attendance 0. -/
theorem attendancePercent_zero_total (r : Row) :
    (r.total_classes ≤ 0 → attendancePercent r = 0) ∧
    (r.total_classes = 0 → r.attended = 0 →
      0 ≤ r.i1 → r.i1 ≤ 70 → 0 ≤ r.i2 → r.i2 ≤ 70 →
      0 ≤ r.assign → r.assign ≤ 10 → 0 ≤ r.sem → r.sem ≤ 10 →
      hasError r = false ∧ attendancePercent r = 0 ∧
      (calculateRow r).riskDisplay = some (riskOf 0 (finalOf r))) := by
  have hap : r.total_classes ≤ 0 → attendancePercent r = 0 := by
    intro hle
    simp only [attendancePercent, gt_iff_lt]
    rw [if_neg (by omega)]
  refine ⟨hap, ?_⟩
  intro h1 h2 h3 h4 h5 h6 h7 h8 h9 h10
  have h : hasError r = false := (hasError_eq_false_iff r).mpr (by omega)
  refine ⟨h, hap (by omega), ?_⟩
  simp [calculateRow, h, hap (by omega)]

/-- Witness for C7 at `totalClasses = 0, attendedClasses = 0` with
mid-range marks. -/
theorem attendancePercent_zero_total_witness :
    (attendancePercent ⟨0, 0, 35, 35, 5, 5⟩ = 0) ∧
    (hasError ⟨0, 0, 35, 35, 5, 5⟩ = false ∧ attendancePercent ⟨0, 0, 35, 35, 5, 5⟩ = 0 ∧
      (calculateRow ⟨0, 0, 35, 35, 5, 5⟩).riskDisplay =
        some (riskOf 0 (finalOf ⟨0, 0, 35, 35, 5, 5⟩))) :=
  ⟨(attendancePercent_zero_total ⟨0, 0, 35, 35, 5, 5⟩).1 (by decide),
    (attendancePercent_zero_total ⟨0, 0, 35, 35, 5, 5⟩).2 (by decide) (by decide) (by decide)
      (by decide) (by decide) (by decide) (by decide) (by decide) (by decide) (by decide)⟩

/-- C8: between two valid rows differing only in `internal1`, both
values in `[0, 70]`, the row with the larger `internal1` has the larger
(or equal) total and final; both rows display those totals and
finals. -/
theorem calculateRow_monotone_internal1 (r : Row) (j : Int) (h : hasError r = false)
    (hj : hasError { r with i1 := j } = false) (hle : r.i1 ≤ j) :
    totalOf r ≤ totalOf { r with i1 := j } ∧
    finalOf r ≤ finalOf { r with i1 := j } ∧
    (calculateRow r).totalDisplay = Display.num (totalOf r) ∧
    (calculateRow { r with i1 := j }).totalDisplay = Display.num (totalOf { r with i1 := j }) ∧
    (calculateRow r).finalCalc = finalOf r ∧
    (calculateRow { r with i1 := j }).finalCalc = finalOf { r with i1 := j } := by
  refine ⟨?_, ?_, ?_, ?_, ?_, ?_⟩
  · unfold totalOf; simp only; omega
  · unfold finalOf totalOf jsRound; simp only; omega
  · simp [calculateRow, h]
  · simp [calculateRow, hj]
  · simp [calculateRow, h]
  · simp [calculateRow, hj]

/-- Witness for C8: raising `internal1` from 20 to 60 in scenario-D-like
data raises total from 40 to 80 and final from 5 to 10. -/
theorem calculateRow_monotone_internal1_witness :
    totalOf ⟨40, 40, 20, 20, 0, 0⟩ ≤ totalOf ⟨40, 40, 60, 20, 0, 0⟩ ∧
    finalOf ⟨40, 40, 20, 20, 0, 0⟩ ≤ finalOf ⟨40, 40, 60, 20, 0, 0⟩ ∧
    (calculateRow ⟨40, 40, 20, 20, 0, 0⟩).totalDisplay =
      Display.num (totalOf ⟨40, 40, 20, 20, 0, 0⟩) ∧
    (calculateRow ⟨40, 40, 60, 20, 0, 0⟩).totalDisplay =
      Display.num (totalOf ⟨40, 40, 60, 20, 0, 0⟩) ∧
    (calculateRow ⟨40, 40, 20, 20, 0, 0⟩).finalCalc = finalOf ⟨40, 40, 20, 20, 0, 0⟩ ∧
    (calculateRow ⟨40, 40, 60, 20, 0, 0⟩).finalCalc = finalOf ⟨40, 40, 60, 20, 0, 0⟩ :=
  calculateRow_monotone_internal1 ⟨40, 40, 20, 20, 0, 0⟩ 60 (by decide) (by decide) (by decide)

/-- C9: `calculateRow` reads only the row's six input values — which it
never overwrites — so running it twice on the same DOM state equals
running it once, and two states with the same input values produce the
same outputs. -/
theorem runCalculateRow_idempotent (st st₂ : DomState) (h : st₂.raw = st.raw) :
    runCalculateRow (runCalculateRow st) = runCalculateRow st ∧
    (runCalculateRow st₂).out = (runCalculateRow st).out := by
  constructor
  · rfl
  · simp [runCalculateRow, h]

/-- Witness for C9: two states sharing inputs but with different stale
outputs converge to the same rendering. -/
theorem runCalculateRow_idempotent_witness :
    (runCalculateRow (runCalculateRow
        ⟨⟨some 50, some 40, some 60, some 55, some 8, some 7⟩,
          ⟨Display.err, Display.err, 0, none, none, false, false, false, false, false⟩⟩) =
      runCalculateRow
        ⟨⟨some 50, some 40, some 60, some 55, some 8, some 7⟩,
          ⟨Display.err, Display.err, 0, none, none, false, false, false, false, false⟩⟩) ∧
    (runCalculateRow
        ⟨⟨some 50, some 40, some 60, some 55, some 8, some 7⟩,
          ⟨Display.num 3, Display.num 3, 3, some Grade.B, some Risk.Safe,
            true, true, true, true, true⟩⟩).out =
      (runCalculateRow
        ⟨⟨some 50, some 40, some 60, some 55, some 8, some 7⟩,
          ⟨Display.err, Display.err, 0, none, none, false, false, false, false, false⟩⟩).out :=
  runCalculateRow_idempotent
    ⟨⟨some 50, some 40, some 60, some 55, some 8, some 7⟩,
      ⟨Display.err, Display.err, 0, none, none, false, false, false, false, false⟩⟩
    ⟨⟨some 50, some 40, some 60, some 55, some 8, some 7⟩,
      ⟨Display.num 3, Display.num 3, 3, some Grade.B, some Risk.Safe,
        true, true, true, true, true⟩⟩
    rfl

/-- C10 counterexample: an empty `attendedClasses` field is coerced to
0, yet when `totalClasses` parses to `-1` the coerced 0 exceeds it and
the attendance check flags the field as invalid — so "coerced to 0"
does not always imply "passes its check". -/
theorem empty_attended_flagged_when_total_negative :
    (parseRow ⟨some (-1), none, some 0, some 0, some 0, some 0⟩).attended = 0 ∧
    attendedError (parseRow ⟨some (-1), none, some 0, some 0, some 0, some 0⟩) = true ∧
    hasError (parseRow ⟨some (-1), none, some 0, some 0, some 0, some 0⟩) = true := by
  decide

/-- C10 (amended): every raw field that is empty or non-numeric
(`parseInt` gives `NaN`) is coerced to 0 before any validation; a
coerced internal1, internal2, assignment, or seminar always passes its
range check, a coerced `totalClasses` becomes 0, and a coerced
`attendedClasses` becomes 0 and passes its check provided the parsed
`totalClasses` is non-negative (its check compares against
`totalClasses`, so a negative class count still flags it). -/
theorem parseRow_coerces_missing (raw : RawRow) :
    (raw.i1 = none → (parseRow raw).i1 = 0 ∧ i1Error (parseRow raw) = false) ∧
    (raw.i2 = none → (parseRow raw).i2 = 0 ∧ i2Error (parseRow raw) = false) ∧
    (raw.assign = none → (parseRow raw).assign = 0 ∧ assignError (parseRow raw) = false) ∧
    (raw.sem = none → (parseRow raw).sem = 0 ∧ semError (parseRow raw) = false) ∧
    (raw.attended = none → (parseRow raw).attended = 0 ∧
      (0 ≤ (parseRow raw).total_classes → attendedError (parseRow raw) = false)) ∧
    (raw.total_classes = none → (parseRow raw).total_classes = 0) := by
  refine ⟨?_, ?_, ?_, ?_, ?_, ?_⟩
  · intro h
    simp [parseRow, i1Error, coerceField, h]
  · intro h
    simp [parseRow, i2Error, coerceField, h]
  · intro h
    simp [parseRow, assignError, coerceField, h]
  · intro h
    simp [parseRow, semError, coerceField, h]
  · intro h
    refine ⟨by simp [parseRow, coerceField, h], ?_⟩
    intro htc
    simp only [attendedError, parseRow, coerceField, h, gt_iff_lt, decide_eq_false_iff_not,
      not_lt]
    exact htc
  · intro h
    simp [parseRow, coerceField, h]

/-- Witness for C10 (amended): a row whose six fields are all empty
parses to all zeros and passes every check. -/
theorem parseRow_coerces_missing_witness :
    ((parseRow ⟨none, none, none, none, none, none⟩).i1 = 0 ∧
      i1Error (parseRow ⟨none, none, none, none, none, none⟩) = false) ∧
    ((parseRow ⟨none, none, none, none, none, none⟩).i2 = 0 ∧
      i2Error (parseRow ⟨none, none, none, none, none, none⟩) = false) ∧
    ((parseRow ⟨none, none, none, none, none, none⟩).assign = 0 ∧
      assignError (parseRow ⟨none, none, none, none, none, none⟩) = false) ∧
    ((parseRow ⟨none, none, none, none, none, none⟩).sem = 0 ∧
      semError (parseRow ⟨none, none, none, none, none, none⟩) = false) ∧
    ((parseRow ⟨none, none, none, none, none, none⟩).attended = 0 ∧
      (0 ≤ (parseRow ⟨none, none, none, none, none, none⟩).total_classes →
        attendedError (parseRow ⟨none, none, none, none, none, none⟩) = false)) ∧
    ((parseRow ⟨none, none, none, none, none, none⟩).total_classes = 0) :=
  ⟨(parseRow_coerces_missing ⟨none, none, none, none, none, none⟩).1 rfl,
    (parseRow_coerces_missing ⟨none, none, none, none, none, none⟩).2.1 rfl,
    (parseRow_coerces_missing ⟨none, none, none, none, none, none⟩).2.2.1 rfl,
    (parseRow_coerces_missing ⟨none, none, none, none, none, none⟩).2.2.2.1 rfl,
    (parseRow_coerces_missing ⟨none, none, none, none, none, none⟩).2.2.2.2.1 rfl,
    (parseRow_coerces_missing ⟨none, none, none, none, none, none⟩).2.2.2.2.2 rfl⟩

end SPAS
